import Mathlib

/-!
# Window_mac: the SDL window adapter of the viewer

A shallow embedding of `tools/viewer/sk_app/mac/Window_mac.cpp`.

* A `Window_mac` object is a record of its fields; a method is a function from the
  record and the process-wide state (`Globals`) to a result, the new record and the
  new globals.  The address of the object (`this`) is passed explicitly, since the
  global table `gWindowMap` stores it.
* Every call that leaves the adapter (an SDL call, a table update, a callback of the
  base class `Window`) is appended to `Globals.trace`, so that "no window is created",
  "destroyed before created" and "exactly one callback" are statements about the trace.
* What SDL answers is an explicit argument of the method that asks for it: `created` is
  the value returned by `SDL_CreateWindow` (none for a null pointer), `modState` the
  value returned by `SDL_GetModState`, `context` the value returned by `NewGLForMac`.
* `World` is a heap of adapters together with the globals; `Step` is one method call
  on one adapter of the heap.
-/

namespace sk_app

/-! ## Data model -/

/-- Address of a `Window_mac` object: the value of `this`, and what `gWindowMap` stores. -/
abbrev WindowRef := Nat

/-- An `SDL_Window*` as the adapter uses it: the pointer returned by `SDL_CreateWindow`
and the ID that `SDL_GetWindowID` reports for it. -/
structure SDL_Window where
  addr : Nat
  id : Nat
  deriving DecidableEq, Repr

/-- The one field of `DisplayParams` that the file reads. -/
structure DisplayParams where
  fMSAASampleCount : Int
  deriving DecidableEq, Repr

/-- The `SDL_GLattr` values that `initWindow` sets. -/
inductive SDL_GLattr
  | SDL_GL_CONTEXT_MAJOR_VERSION
  | SDL_GL_CONTEXT_MINOR_VERSION
  | SDL_GL_CONTEXT_PROFILE_MASK
  | SDL_GL_RED_SIZE
  | SDL_GL_GREEN_SIZE
  | SDL_GL_BLUE_SIZE
  | SDL_GL_DOUBLEBUFFER
  | SDL_GL_DEPTH_SIZE
  | SDL_GL_STENCIL_SIZE
  | SDL_GL_ACCELERATED_VISUAL
  | SDL_GL_MULTISAMPLEBUFFERS
  | SDL_GL_MULTISAMPLESAMPLES
  deriving DecidableEq, Repr

/-- `Window::Key`, restricted to the values that `get_key` can return. -/
inductive Key
  | kNONE
  | kBack
  | kOK
  | kUp
  | kDown
  | kLeft
  | kRight
  deriving DecidableEq, Repr

/-- `Window::InputState`. -/
inductive InputState
  | kDown_InputState
  | kUp_InputState
  | kMove_InputState
  deriving DecidableEq, Repr

/-- The `Window::ModifierKeys` masks that `get_modifiers` uses.  `Window.h` is not part of
the translated file, so the four masks are a parameter of the embedding. -/
structure ModifierKeys where
  kShift_ModifierKey : Nat
  kControl_ModifierKey : Nat
  kOption_ModifierKey : Nat
  kFirstPress_ModifierKey : Nat
  deriving DecidableEq, Repr

/-- The members of the `SDL_Event` union that the file reads.  `type` and `windowID` sit
at the same place in every member; the other fields are named after the member they
belong to (`window.event`, `button.x`, `motion.state`, `key.keysym.sym`, ...). -/
structure SDL_Event where
  type : Nat
  windowID : Nat
  window_event : Nat
  window_data1 : Int
  window_data2 : Int
  button_button : Nat
  button_x : Int
  button_y : Int
  motion_state : Nat
  motion_x : Int
  motion_y : Int
  key_sym : Int
  key_mod : Nat
  key_repeat : Nat
  deriving DecidableEq, Repr

/-- A call of one of the `Window` callbacks that `handleEvent` forwards to. -/
inductive Callback
  | onPaint
  | onResize (w h : Int)
  | onMouse (x y : Int) (state : InputState) (modifiers : Nat)
  | onKey (key : Key) (state : InputState) (modifiers : Nat)
  | onChar (c : Int) (modifiers : Nat)
  deriving DecidableEq, Repr

/-- One observable action of the adapter, in the order the code performs them. -/
inductive Effect
  | SDL_GL_SetAttribute (attr : SDL_GLattr) (value : Int)
  | SDL_CreateWindow (title : String) (x y w h : Int) (flags : Nat) (result : Option SDL_Window)
  | SDL_DestroyWindow (win : SDL_Window)
  | SDL_PushEvent (event : SDL_Event)
  | NewGLForMac (fWindow : Option SDL_Window) (params : DisplayParams) (result : Option Nat)
  | mapAdd (key : Nat) (win : WindowRef)
  | mapRemove (key : Nat)
  | callback (win : WindowRef) (cb : Callback)
  deriving DecidableEq, Repr

/-- The fields of a `Window_mac` object (its own and those inherited from `Window`). -/
structure Window_mac where
  fWindow : Option SDL_Window
  fWindowID : Nat
  fMSAASampleCount : Int
  fWidth : Int
  fHeight : Int
  fWindowContext : Option Nat
  deriving DecidableEq, Repr

/-- The state shared by all adapters: the static table `gWindowMap`, the windows SDL
currently has open, the SDL event queue, and the trace of effects so far. -/
structure Globals where
  gWindowMap : List (Nat × WindowRef)
  live : List SDL_Window
  queue : List SDL_Event
  trace : List Effect
  deriving DecidableEq, Repr

/-! ## SDL constants (values of the SDL2 headers) -/

def SDL_WINDOWEVENT : Nat := 0x200
def SDL_KEYDOWN : Nat := 0x300
def SDL_KEYUP : Nat := 0x301
def SDL_MOUSEMOTION : Nat := 0x400
def SDL_MOUSEBUTTONDOWN : Nat := 0x401
def SDL_MOUSEBUTTONUP : Nat := 0x402

def SDL_WINDOWEVENT_EXPOSED : Nat := 3
def SDL_WINDOWEVENT_RESIZED : Nat := 5

def SDL_BUTTON_LEFT : Nat := 1
def SDL_BUTTON_LMASK : Nat := 1

def SDLK_BACKSPACE : Int := 8
def SDLK_RETURN : Int := 13
def SDLK_ESCAPE : Int := 27
def SDLK_RIGHT : Int := 0x4000004F
def SDLK_LEFT : Int := 0x40000050
def SDLK_DOWN : Int := 0x40000051
def SDLK_UP : Int := 0x40000052
def SDLK_CLEAR : Int := 0x4000009C

def KMOD_SHIFT : Nat := 0x0003
def KMOD_CTRL : Nat := 0x00C0
def KMOD_ALT : Nat := 0x0300

def SDL_GL_CONTEXT_PROFILE_CORE : Int := 1
def SDL_WINDOWPOS_CENTERED : Int := 0x2FFF0000
def SDL_WINDOW_OPENGL : Nat := 0x2
def SDL_WINDOW_RESIZABLE : Nat := 0x20

/-! ## The table `SkTDynamicHash<Window_mac, Uint32>` -/

namespace SkTDynamicHash

/-- Modelled from the spec: `SkTDynamicHash` is declared outside the translated file; the
spec calls it a windowID-to-adapter-instance lookup table.  It is a list of
(window ID, adapter) entries; `find` returns the adapter of the first entry under the key. -/
def find (key : Nat) : List (Nat × WindowRef) → Option WindowRef
  | [] => none
  | e :: rest => if e.1 = key then some e.2 else find key rest

/-- Modelled from the spec: `add(this)` enters the adapter under its key, which for
`Window_mac` is the value of `fWindowID` at the time of the call. -/
def add (key : Nat) (win : WindowRef) (tbl : List (Nat × WindowRef)) : List (Nat × WindowRef) :=
  (key, win) :: tbl

/-- Modelled from the spec: `remove(key)` deletes the entry that `find` reaches under the
key, and nothing when there is none. -/
def remove (key : Nat) : List (Nat × WindowRef) → List (Nat × WindowRef)
  | [] => []
  | e :: rest => if e.1 = key then rest else e :: remove key rest

end SkTDynamicHash

/-! ## SDL calls -/

/-- Append effects to the trace. -/
def Globals.emit (g : Globals) (es : List Effect) : Globals :=
  { g with trace := g.trace ++ es }

/-- The call `SDL_GL_SetAttribute(attr, value)`. -/
def SDL_GL_SetAttribute (attr : SDL_GLattr) (value : Int) (g : Globals) : Globals :=
  g.emit [Effect.SDL_GL_SetAttribute attr value]

/-- The call `SDL_CreateWindow(title, x, y, w, h, flags)`; `created` is what SDL returns.
A window that was created is live until it is destroyed. -/
def SDL_CreateWindow (title : String) (x y w h : Int) (flags : Nat)
    (created : Option SDL_Window) (g : Globals) : Option SDL_Window × Globals :=
  (created,
   { g with
     live := (match created with
              | some win => win :: g.live
              | none => g.live),
     trace := g.trace ++ [Effect.SDL_CreateWindow title x y w h flags created] })

/-- The call `SDL_GetWindowID(window)`. -/
def SDL_GetWindowID (win : SDL_Window) : Nat := win.id

/-- The call `SDL_DestroyWindow(window)`. -/
def SDL_DestroyWindow (win : SDL_Window) (g : Globals) : Globals :=
  { g with
    live := g.live.filter (fun x => decide (x ≠ win)),
    trace := g.trace ++ [Effect.SDL_DestroyWindow win] }

/-- The call `SDL_PushEvent(&event)`. -/
def SDL_PushEvent (event : SDL_Event) (g : Globals) : Globals :=
  { g with
    queue := g.queue ++ [event],
    trace := g.trace ++ [Effect.SDL_PushEvent event] }

/-- The call `gWindowMap.add(this)`. -/
def gWindowMap_add (this : WindowRef) (self : Window_mac) (g : Globals) : Globals :=
  { g with
    gWindowMap := SkTDynamicHash.add self.fWindowID this g.gWindowMap,
    trace := g.trace ++ [Effect.mapAdd self.fWindowID this] }

/-- The call `gWindowMap.remove(key)`. -/
def gWindowMap_remove (key : Nat) (g : Globals) : Globals :=
  { g with
    gWindowMap := SkTDynamicHash.remove key g.gWindowMap,
    trace := g.trace ++ [Effect.mapRemove key] }

/-! ## The methods of `Window_mac` -/

/-- `Window_mac::closeWindow` (lines 75-82). -/
def closeWindow (self : Window_mac) (g : Globals) : Window_mac × Globals :=
  match self.fWindow with
  | some win =>
    let g := gWindowMap_remove self.fWindowID g
    let g := SDL_DestroyWindow win g
    ({ self with fWindowID := 0, fWindow := none }, g)
  | none => (self, g)

/-- The attribute calls of `initWindow` (lines 39-57), in order. -/
def setGLAttributes (params : Option DisplayParams) (g : Globals) : Globals :=
  let g := SDL_GL_SetAttribute .SDL_GL_CONTEXT_MAJOR_VERSION 3 g
  let g := SDL_GL_SetAttribute .SDL_GL_CONTEXT_MINOR_VERSION 0 g
  let g := SDL_GL_SetAttribute .SDL_GL_CONTEXT_PROFILE_MASK SDL_GL_CONTEXT_PROFILE_CORE g
  let g := SDL_GL_SetAttribute .SDL_GL_RED_SIZE 8 g
  let g := SDL_GL_SetAttribute .SDL_GL_GREEN_SIZE 8 g
  let g := SDL_GL_SetAttribute .SDL_GL_BLUE_SIZE 8 g
  let g := SDL_GL_SetAttribute .SDL_GL_DOUBLEBUFFER 1 g
  let g := SDL_GL_SetAttribute .SDL_GL_DEPTH_SIZE 0 g
  let g := SDL_GL_SetAttribute .SDL_GL_STENCIL_SIZE 8 g
  let g := SDL_GL_SetAttribute .SDL_GL_ACCELERATED_VISUAL 1 g
  match params with
  | some p =>
    if p.fMSAASampleCount > 0 then
      let g := SDL_GL_SetAttribute .SDL_GL_MULTISAMPLEBUFFERS 1 g
      SDL_GL_SetAttribute .SDL_GL_MULTISAMPLESAMPLES p.fMSAASampleCount g
    else
      SDL_GL_SetAttribute .SDL_GL_MULTISAMPLEBUFFERS 0 g
  | none => SDL_GL_SetAttribute .SDL_GL_MULTISAMPLEBUFFERS 0 g

/-- The first statement of `initWindow` (lines 28-30): close the window when params are
given and their sample count differs from the stored one. -/
def closeOnMismatch (params : Option DisplayParams) (self : Window_mac) (g : Globals) :
    Window_mac × Globals :=
  match params with
  | some p =>
    if p.fMSAASampleCount ≠ self.fMSAASampleCount then closeWindow self g else (self, g)
  | none => (self, g)

/-- The rest of `initWindow` (lines 31-72), from the test of `fWindow` on. -/
def openWindow (this : WindowRef) (params : Option DisplayParams) (created : Option SDL_Window)
    (self : Window_mac) (g : Globals) : Bool × Window_mac × Globals :=
  match self.fWindow with
  | some _ => (true, self, g)
  | none =>
    let self := { self with fWidth := 1280, fHeight := 960 }
    let g := setGLAttributes params g
    let windowFlags := SDL_WINDOW_OPENGL ||| SDL_WINDOW_RESIZABLE
    let r := SDL_CreateWindow "SDL Window" SDL_WINDOWPOS_CENTERED SDL_WINDOWPOS_CENTERED
      self.fWidth self.fHeight windowFlags created g
    let self := { self with fWindow := r.1 }
    let g := r.2
    match self.fWindow with
    | none => (false, self, g)
    | some win =>
      let self := { self with fWindowID := SDL_GetWindowID win }
      let g := gWindowMap_add this self g
      (true, self, g)

/-- `Window_mac::initWindow` (lines 27-73).  `params` is none for a null pointer. -/
def initWindow (this : WindowRef) (params : Option DisplayParams) (created : Option SDL_Window)
    (self : Window_mac) (g : Globals) : Bool × Window_mac × Globals :=
  let s := closeOnMismatch params self g
  openWindow this params created s.1 s.2

/-- `get_key` (lines 84-103): the table `gPair`. -/
def gPair : List (Int × Key) :=
  [ (SDLK_BACKSPACE, Key.kBack),
    (SDLK_CLEAR, Key.kBack),
    (SDLK_RETURN, Key.kOK),
    (SDLK_UP, Key.kUp),
    (SDLK_DOWN, Key.kDown),
    (SDLK_LEFT, Key.kLeft),
    (SDLK_RIGHT, Key.kRight) ]

/-- `get_key` (lines 84-103): the loop over a table, first match wins. -/
def get_key_loop (sym : Int) : List (Int × Key) → Key
  | [] => Key.kNONE
  | e :: rest => if e.1 = sym then e.2 else get_key_loop sym rest

/-- `get_key` (lines 84-103). -/
def get_key (sym : Int) : Key := get_key_loop sym gPair

/-- `get_modifiers` (lines 105-143): the table `gModifiers`. -/
def gModifiers (mk : ModifierKeys) : List (Nat × Nat) :=
  [ (KMOD_SHIFT, mk.kShift_ModifierKey),
    (KMOD_CTRL, mk.kControl_ModifierKey),
    (KMOD_ALT, mk.kOption_ModifierKey) ]

/-- `get_modifiers` (lines 105-143): the loop that ors in the mask of every table entry
whose SDL mask meets `mod`. -/
def modifiers_loop (mod : Nat) (modifiers : Nat) : List (Nat × Nat) → Nat
  | [] => modifiers
  | e :: rest =>
    modifiers_loop mod (if mod &&& e.1 ≠ 0 then modifiers ||| e.2 else modifiers) rest

/-- `get_modifiers` (lines 105-143).  `modState` is what `SDL_GetModState` returns. -/
def get_modifiers (mk : ModifierKeys) (modState : Nat) (event : SDL_Event) : Nat :=
  if event.type = SDL_KEYDOWN ∨ event.type = SDL_KEYUP then
    let modifiers := modifiers_loop event.key_mod 0 (gModifiers mk)
    if 0 = event.key_repeat then modifiers ||| mk.kFirstPress_ModifierKey else modifiers
  else
    modifiers_loop modState 0 (gModifiers mk)

/-- `Window_mac::handleEvent` (lines 154-213): the result and the callbacks made on
`this`, in order. -/
def handleEvent (mk : ModifierKeys) (modState : Nat) (event : SDL_Event) :
    Bool × List Callback :=
  if event.type = SDL_WINDOWEVENT then
    if SDL_WINDOWEVENT_EXPOSED = event.window_event then
      (false, [Callback.onPaint])
    else if SDL_WINDOWEVENT_RESIZED = event.window_event then
      (false, [Callback.onResize event.window_data1 event.window_data2])
    else
      (false, [])
  else if event.type = SDL_MOUSEBUTTONDOWN then
    if event.button_button = SDL_BUTTON_LEFT then
      (false, [Callback.onMouse event.button_x event.button_y InputState.kDown_InputState
                (get_modifiers mk modState event)])
    else
      (false, [])
  else if event.type = SDL_MOUSEBUTTONUP then
    if event.button_button = SDL_BUTTON_LEFT then
      (false, [Callback.onMouse event.button_x event.button_y InputState.kUp_InputState
                (get_modifiers mk modState event)])
    else
      (false, [])
  else if event.type = SDL_MOUSEMOTION then
    if event.motion_state &&& SDL_BUTTON_LMASK ≠ 0 then
      (false, [Callback.onMouse event.motion_x event.motion_y InputState.kMove_InputState
                (get_modifiers mk modState event)])
    else
      (false, [])
  else if event.type = SDL_KEYDOWN then
    if event.key_sym = SDLK_ESCAPE then
      (true, [])
    else
      let key := get_key event.key_sym
      if key ≠ Key.kNONE then
        (false, [Callback.onKey key InputState.kDown_InputState
                  (get_modifiers mk modState event)])
      else
        (false, [Callback.onChar event.key_sym (get_modifiers mk modState event)])
  else if event.type = SDL_KEYUP then
    let key := get_key event.key_sym
    if key ≠ Key.kNONE then
      (false, [Callback.onKey key InputState.kUp_InputState
                (get_modifiers mk modState event)])
    else
      (false, [])
  else
    (false, [])

/-- `Window_mac::HandleWindowEvent` (lines 145-152): the callbacks that `handleEvent`
makes on the adapter found are recorded in the trace under that adapter. -/
def HandleWindowEvent (mk : ModifierKeys) (modState : Nat) (event : SDL_Event) (g : Globals) :
    Bool × Globals :=
  match SkTDynamicHash.find event.windowID g.gWindowMap with
  | some win =>
    let r := handleEvent mk modState event
    let g := g.emit (r.2.map (Effect.callback win))
    if r.1 then (true, g) else (false, g)
  | none => (false, g)

/-- `Window_mac::attach` (lines 223-236).  Every backend type takes the same branch, so the
type is not an argument; `context` is what `NewGLForMac` returns. -/
def attach (this : WindowRef) (params : DisplayParams) (created : Option SDL_Window)
    (context : Option Nat) (self : Window_mac) (g : Globals) : Bool × Window_mac × Globals :=
  let r := initWindow this (some params) created self g
  let self := r.2.1
  let g := r.2.2
  let info_fWindow := self.fWindow
  let g := g.emit [Effect.NewGLForMac info_fWindow params context]
  let self := { self with fWindowContext := context }
  (self.fWindowContext.isSome, self, g)

/-- The local `sdlevent` of `onInval` after its three assignments (lines 239-242).  It is
not initialised: `uninit` is what it holds before. -/
def onInval_sdlevent (uninit : SDL_Event) (self : Window_mac) : SDL_Event :=
  { uninit with
    type := SDL_WINDOWEVENT,
    windowID := self.fWindowID,
    window_event := SDL_WINDOWEVENT_EXPOSED }

/-- `Window_mac::onInval` (lines 238-244). -/
def onInval (uninit : SDL_Event) (self : Window_mac) (g : Globals) : Globals :=
  let sdlevent := onInval_sdlevent uninit self
  SDL_PushEvent sdlevent g

/-! ## Several adapters -/

/-- The adapters that exist, by address, and the globals they share. -/
structure World where
  heap : List Window_mac
  g : Globals
  deriving DecidableEq, Repr

/-- Store what a method call on the adapter at `this` left: its record and the globals. -/
def World.put (w : World) (this : WindowRef) (self : Window_mac) (g : Globals) : World :=
  { heap := w.heap.set this self, g := g }

/-- The windows that are live when `initWindow` on `self` reaches `SDL_CreateWindow`: it
gets there only if `self` held no window or has just destroyed the one it held. -/
def liveAtCreation (self : Window_mac) (g : Globals) : List SDL_Window :=
  match self.fWindow with
  | some win => (SDL_DestroyWindow win g).live
  | none => g.live

/-- The assumption on SDL: a window it creates has an ID that no live window has. -/
def FreshID (created : Option SDL_Window) (self : Window_mac) (g : Globals) : Prop :=
  ∀ nw, created = some nw → ∀ x ∈ liveAtCreation self g, x.id ≠ nw.id

/-- One method call on one adapter of the heap (or the static `HandleWindowEvent`). -/
inductive Step : World → World → Prop
  | initWindow (w : World) (this : WindowRef) (self : Window_mac)
      (params : Option DisplayParams) (created : Option SDL_Window)
      (hself : w.heap[this]? = some self) (hfresh : FreshID created self w.g) :
      Step w (w.put this (initWindow this params created self w.g).2.1
                (initWindow this params created self w.g).2.2)
  | closeWindow (w : World) (this : WindowRef) (self : Window_mac)
      (hself : w.heap[this]? = some self) :
      Step w (w.put this (closeWindow self w.g).1 (closeWindow self w.g).2)
  | attach (w : World) (this : WindowRef) (self : Window_mac)
      (params : DisplayParams) (created : Option SDL_Window) (context : Option Nat)
      (hself : w.heap[this]? = some self) (hfresh : FreshID created self w.g) :
      Step w (w.put this (attach this params created context self w.g).2.1
                (attach this params created context self w.g).2.2)
  | onInval (w : World) (this : WindowRef) (self : Window_mac) (uninit : SDL_Event)
      (hself : w.heap[this]? = some self) :
      Step w { w with g := onInval uninit self w.g }
  | HandleWindowEvent (w : World) (mk : ModifierKeys) (modState : Nat) (event : SDL_Event) :
      Step w { w with g := (HandleWindowEvent mk modState event w.g).2 }

/-- A world of freshly constructed adapters: none holds a window, the table is empty. -/
def Initial (w : World) : Prop :=
  (∀ self ∈ w.heap, self.fWindow = none) ∧ w.g.gWindowMap = []

/-- The worlds that method calls lead to from freshly constructed adapters. -/
def Reachable (w : World) : Prop :=
  ∃ w0, Initial w0 ∧ Relation.ReflTransGen Step w0 w

/-- The invariant that links the table, the adapters and the live windows: the entries of
the table are exactly the pairs (current window ID, adapter) of the adapters that hold a
window, no key occurs twice, and a held window is live and has the stored ID. -/
structure Inv (w : World) : Prop where
  entry_iff : ∀ (k : Nat) (ref : WindowRef), (k, ref) ∈ w.g.gWindowMap ↔
    ∃ (self : Window_mac) (win : SDL_Window), w.heap[ref]? = some self ∧ self.fWindow = some win ∧ self.fWindowID = k
  keys_nodup : (w.g.gWindowMap.map Prod.fst).Nodup
  window_live : ∀ (ref : WindowRef) (self : Window_mac) (win : SDL_Window),
    w.heap[ref]? = some self → self.fWindow = some win →
    win ∈ w.g.live ∧ self.fWindowID = win.id

/-! ## Concrete states -/

/-- An adapter that holds no window. -/
def closedAdapter : Window_mac :=
  { fWindow := none, fWindowID := 0, fMSAASampleCount := 0, fWidth := 0, fHeight := 0,
    fWindowContext := none }

/-- An adapter that holds the window with address 100 and ID 1. -/
def openAdapter : Window_mac :=
  { fWindow := some ⟨100, 1⟩, fWindowID := 1, fMSAASampleCount := 0, fWidth := 1280,
    fHeight := 960, fWindowContext := none }

/-- Globals in which no window is open. -/
def emptyGlobals : Globals :=
  { gWindowMap := [], live := [], queue := [], trace := [] }

/-- Globals in which the window of `openAdapter` is open and registered for adapter 0. -/
def openGlobals : Globals :=
  { gWindowMap := [(1, 0)], live := [⟨100, 1⟩], queue := [], trace := [] }

/-- Masks of `Window::ModifierKeys` with one bit each. -/
def sampleModifierKeys : ModifierKeys :=
  { kShift_ModifierKey := 1, kControl_ModifierKey := 2, kOption_ModifierKey := 4,
    kFirstPress_ModifierKey := 16 }

/-- An event with every field zero. -/
def zeroEvent : SDL_Event :=
  { type := 0, windowID := 0, window_event := 0, window_data1 := 0, window_data2 := 0,
    button_button := 0, button_x := 0, button_y := 0, motion_state := 0, motion_x := 0,
    motion_y := 0, key_sym := 0, key_mod := 0, key_repeat := 0 }

/-- Two freshly constructed adapters. -/
def freshWorld : World :=
  { heap := [closedAdapter, closedAdapter], g := emptyGlobals }

/-- The world after adapter 0 of `freshWorld` has opened the window with ID 1. -/
def oneOpenWorld : World :=
  freshWorld.put 0 (initWindow 0 none (some ⟨100, 1⟩) closedAdapter freshWorld.g).2.1
    (initWindow 0 none (some ⟨100, 1⟩) closedAdapter freshWorld.g).2.2

/-! ## Observations on traces and definitions used to state the theorems -/

/-- Number of `SDL_CreateWindow` calls in a trace. -/
def creationAttempts : List Effect → Nat
  | [] => 0
  | Effect.SDL_CreateWindow _ _ _ _ _ _ _ :: rest => creationAttempts rest + 1
  | _ :: rest => creationAttempts rest

/-- The callbacks recorded in a trace, with the adapter each was made on. -/
def callbacksOf : List Effect → List (WindowRef × Callback)
  | [] => []
  | Effect.callback win cb :: rest => (win, cb) :: callbacksOf rest
  | _ :: rest => callbacksOf rest

/-- The `SDL_GL_SetAttribute` calls that `initWindow` makes for given params, in order. -/
def attributeCalls (params : Option DisplayParams) : List Effect :=
  (setGLAttributes params emptyGlobals).trace

/-- The `SDL_CreateWindow` call that `initWindow` makes, with its result. -/
def createCall (created : Option SDL_Window) : Effect :=
  Effect.SDL_CreateWindow "SDL Window" SDL_WINDOWPOS_CENTERED SDL_WINDOWPOS_CENTERED 1280 960
    (SDL_WINDOW_OPENGL ||| SDL_WINDOW_RESIZABLE) created

/-- Two calls of `initWindow` in succession with the same params: `c1` and `c2` are what
`SDL_CreateWindow` returns to the first and to the second call. -/
def initWindowTwice (this : WindowRef) (params : Option DisplayParams)
    (c1 c2 : Option SDL_Window) (self : Window_mac) (g : Globals) :
    Bool × Window_mac × Globals :=
  initWindow this params c2 (initWindow this params c1 self g).2.1
    (initWindow this params c1 self g).2.2

/-- The keycode table in the words of the claim: Backspace and Clear give kBack, Return
gives kOK, the four arrows give the matching direction, every other keycode gives kNONE. -/
def claimedKeyTable (sym : Int) : Key :=
  if sym = SDLK_BACKSPACE ∨ sym = SDLK_CLEAR then Key.kBack
  else if sym = SDLK_RETURN then Key.kOK
  else if sym = SDLK_UP then Key.kUp
  else if sym = SDLK_DOWN then Key.kDown
  else if sym = SDLK_LEFT then Key.kLeft
  else if sym = SDLK_RIGHT then Key.kRight
  else Key.kNONE

/-! ## The table -/

namespace SkTDynamicHash

theorem remove_sublist (key : Nat) (tbl : List (Nat × WindowRef)) :
    (remove key tbl).Sublist tbl := by
  induction tbl with
  | nil => exact List.Sublist.refl _
  | cons e rest ih =>
    unfold remove
    split_ifs
    · exact List.sublist_cons_self e rest
    · exact ih.cons₂ e

theorem find_of_mem (tbl : List (Nat × WindowRef)) (key : Nat) (win : WindowRef)
    (hnd : (tbl.map Prod.fst).Nodup) (hmem : (key, win) ∈ tbl) : find key tbl = some win := by
  induction tbl with
  | nil => simp at hmem
  | cons e rest ih =>
    rw [List.map_cons, List.nodup_cons] at hnd
    unfold find
    rcases List.mem_cons.1 hmem with h | h
    · subst h
      simp
    · have hne : e.1 ≠ key := by
        intro he
        apply hnd.1
        rw [he]
        exact List.mem_map.2 ⟨(key, win), h, rfl⟩
      rw [if_neg hne]
      exact ih hnd.2 h

theorem find_eq_none_iff (tbl : List (Nat × WindowRef)) (key : Nat) :
    find key tbl = none ↔ ∀ win, (key, win) ∉ tbl := by
  induction tbl with
  | nil => simp [find]
  | cons e rest ih =>
    obtain ⟨k, v⟩ := e
    unfold find
    by_cases hk : k = key
    · subst hk
      simp only [if_true]
      constructor
      · intro h
        simp at h
      · intro h
        exact absurd (List.mem_cons_self _ _) (h v)
    · simp only [hk, if_false, ih, List.mem_cons, Prod.mk.injEq, not_or]
      constructor
      · intro h win
        exact ⟨fun h2 => hk h2.1.symm, h win⟩
      · intro h win
        exact (h win).2

theorem mem_remove (tbl : List (Nat × WindowRef)) (key : Nat) (e : Nat × WindowRef)
    (hnd : (tbl.map Prod.fst).Nodup) : e ∈ remove key tbl ↔ e ∈ tbl ∧ e.1 ≠ key := by
  induction tbl with
  | nil => simp [remove]
  | cons a rest ih =>
    rw [List.map_cons, List.nodup_cons] at hnd
    unfold remove
    by_cases ha : a.1 = key
    · rw [if_pos ha]
      constructor
      · intro h
        refine ⟨List.mem_cons_of_mem _ h, ?_⟩
        intro he
        apply hnd.1
        rw [ha, ← he]
        exact List.mem_map.2 ⟨e, h, rfl⟩
      · rintro ⟨h, hne⟩
        rcases List.mem_cons.1 h with h | h
        · subst h
          exact absurd ha hne
        · exact h
    · rw [if_neg ha, List.mem_cons, List.mem_cons, ih hnd.2]
      constructor
      · rintro (h | h)
        · subst h
          exact ⟨Or.inl rfl, ha⟩
        · exact ⟨Or.inr h.1, h.2⟩
      · rintro ⟨h | h, hne⟩
        · exact Or.inl h
        · exact Or.inr ⟨h, hne⟩

theorem find_of_entry (tbl : List (Nat × WindowRef)) (key : Nat) (win : WindowRef)
    (hmem : (key, win) ∈ tbl) : ∃ found, find key tbl = some found := by
  cases h : find key tbl with
  | none => exact absurd hmem ((find_eq_none_iff tbl key).1 h win)
  | some found => exact ⟨found, rfl⟩

end SkTDynamicHash

/-! ## Single-adapter facts -/

theorem closeWindow_of_null (self : Window_mac) (g : Globals) (h : self.fWindow = none) :
    closeWindow self g = (self, g) := by
  simp [closeWindow, h]

theorem closeWindow_fWindow (self : Window_mac) (g : Globals) :
    (closeWindow self g).1.fWindow = none := by
  unfold closeWindow
  cases h : self.fWindow <;> simp [h]

theorem closeWindow_fMSAASampleCount (self : Window_mac) (g : Globals) :
    (closeWindow self g).1.fMSAASampleCount = self.fMSAASampleCount := by
  unfold closeWindow
  cases h : self.fWindow <;> simp

theorem closeOnMismatch_of_match (params : Option DisplayParams) (self : Window_mac) (g : Globals)
    (hp : ∀ q, params = some q → q.fMSAASampleCount = self.fMSAASampleCount) :
    closeOnMismatch params self g = (self, g) := by
  cases params with
  | none => rfl
  | some q => simp [closeOnMismatch, hp q rfl]

theorem closeOnMismatch_of_mismatch (p : DisplayParams) (self : Window_mac) (g : Globals)
    (hp : p.fMSAASampleCount ≠ self.fMSAASampleCount) :
    closeOnMismatch (some p) self g = closeWindow self g := by
  simp [closeOnMismatch, hp]

theorem openWindow_of_window (this : WindowRef) (params : Option DisplayParams)
    (created : Option SDL_Window) (self : Window_mac) (g : Globals) (win : SDL_Window)
    (h : self.fWindow = some win) :
    openWindow this params created self g = (true, self, g) := by
  simp [openWindow, h]

/-! ## Re-initialising with an unchanged sample count -/

theorem initWindow_of_window_same_count (this : WindowRef) (params : Option DisplayParams)
    (created : Option SDL_Window) (self : Window_mac) (g : Globals) (win : SDL_Window)
    (hwin : self.fWindow = some win)
    (hp : ∀ q, params = some q → q.fMSAASampleCount = self.fMSAASampleCount) :
    initWindow this params created self g = (true, self, g) := by
  unfold initWindow
  rw [closeOnMismatch_of_match params self g hp]
  exact openWindow_of_window this params created self g win hwin

/-- C3: an adapter that holds a window and is initialised with null params, or with
params whose sample count equals the stored one, returns true and changes nothing: the
adapter record (handle, ID, dimensions), the table, the live windows and the trace are
the same, so no window is created or destroyed. -/
theorem initWindow_reuses_window (this : WindowRef) (params : Option DisplayParams)
    (created : Option SDL_Window) (self : Window_mac) (g : Globals) (win : SDL_Window)
    (hwin : self.fWindow = some win)
    (hp : ∀ q, params = some q → q.fMSAASampleCount = self.fMSAASampleCount) :
    initWindow this params created self g = (true, self, g) :=
  initWindow_of_window_same_count this params created self g win hwin hp

theorem initWindow_reuses_window_witness :
    initWindow 0 (some ⟨0⟩) (some ⟨200, 2⟩) openAdapter openGlobals
      = (true, openAdapter, openGlobals) :=
  initWindow_reuses_window 0 (some ⟨0⟩) (some ⟨200, 2⟩) openAdapter openGlobals ⟨100, 1⟩ rfl
    (by intro q hq; cases hq; rfl)

/-! ## Closing -/

/-- C6: closing an adapter whose handle is null changes neither the adapter nor the
globals (table, live windows, trace: no window is destroyed); closing always leaves the
handle null; and closing twice is the same as closing once, from every state. -/
theorem closeWindow_unopened_noop_and_idempotent (self : Window_mac) (g : Globals) :
    (self.fWindow = none → closeWindow self g = (self, g)) ∧
    (closeWindow self g).1.fWindow = none ∧
    closeWindow (closeWindow self g).1 (closeWindow self g).2 = closeWindow self g := by
  refine ⟨closeWindow_of_null self g, closeWindow_fWindow self g, ?_⟩
  exact closeWindow_of_null _ _ (closeWindow_fWindow self g)

/-! ## Dispatch -/

/-- C2: when the event's windowID has no entry in the table, `HandleWindowEvent` returns
false and leaves the globals as they are, so the trace gains no callback, whatever the
event is. -/
theorem HandleWindowEvent_unknown_window (mk : ModifierKeys) (modState : Nat)
    (event : SDL_Event) (g : Globals)
    (h : ∀ win, (event.windowID, win) ∉ g.gWindowMap) :
    HandleWindowEvent mk modState event g = (false, g) := by
  have hfind := (SkTDynamicHash.find_eq_none_iff g.gWindowMap event.windowID).2 h
  simp [HandleWindowEvent, hfind]

theorem HandleWindowEvent_unknown_window_witness :
    HandleWindowEvent sampleModifierKeys 0
      { zeroEvent with type := SDL_KEYDOWN, windowID := 7, key_sym := SDLK_ESCAPE } openGlobals
      = (false, openGlobals) :=
  HandleWindowEvent_unknown_window sampleModifierKeys 0
    { zeroEvent with type := SDL_KEYDOWN, windowID := 7, key_sym := SDLK_ESCAPE } openGlobals
    (by intro win h; simp [openGlobals] at h)

/-- C8: a key-down of Escape whose windowID is in the table is reported as consumed and
nothing is forwarded: the globals, and with them the trace of callbacks, are unchanged,
whatever the modifier and repeat fields are. -/
theorem HandleWindowEvent_escape_consumed (mk : ModifierKeys) (modState : Nat)
    (event : SDL_Event) (g : Globals) (win : WindowRef)
    (htype : event.type = SDL_KEYDOWN) (hsym : event.key_sym = SDLK_ESCAPE)
    (hreg : (event.windowID, win) ∈ g.gWindowMap) :
    HandleWindowEvent mk modState event g = (true, g) := by
  obtain ⟨found, hfind⟩ := SkTDynamicHash.find_of_entry g.gWindowMap event.windowID win hreg
  have hne : SDL_KEYDOWN ≠ SDL_WINDOWEVENT ∧ SDL_KEYDOWN ≠ SDL_MOUSEBUTTONDOWN ∧
      SDL_KEYDOWN ≠ SDL_MOUSEBUTTONUP ∧ SDL_KEYDOWN ≠ SDL_MOUSEMOTION := by decide
  obtain ⟨h1, h2, h3, h4⟩ := hne
  have hr : handleEvent mk modState event = (true, []) := by
    simp [handleEvent, htype, hsym, h1, h2, h3, h4]
  simp [HandleWindowEvent, hfind, hr, Globals.emit]

theorem HandleWindowEvent_escape_consumed_witness :
    HandleWindowEvent sampleModifierKeys 3
      { zeroEvent with type := SDL_KEYDOWN, windowID := 1, key_sym := SDLK_ESCAPE,
                       key_mod := 1, key_repeat := 1 } openGlobals
      = (true, openGlobals) :=
  HandleWindowEvent_escape_consumed sampleModifierKeys 3
    { zeroEvent with type := SDL_KEYDOWN, windowID := 1, key_sym := SDLK_ESCAPE,
                     key_mod := 1, key_repeat := 1 } openGlobals 0 rfl rfl (by decide)

theorem closeWindow_unopened_noop_and_idempotent_witness :
    closeWindow closedAdapter emptyGlobals = (closedAdapter, emptyGlobals) ∧
    closeWindow (closeWindow openAdapter openGlobals).1 (closeWindow openAdapter openGlobals).2
      = closeWindow openAdapter openGlobals :=
  ⟨(closeWindow_unopened_noop_and_idempotent closedAdapter emptyGlobals).1 rfl,
   (closeWindow_unopened_noop_and_idempotent openAdapter openGlobals).2.2⟩

/-! ## Key events -/

theorem get_key_eq_claimedKeyTable (sym : Int) : get_key sym = claimedKeyTable sym := by
  simp only [get_key, gPair, get_key_loop, claimedKeyTable, SDLK_BACKSPACE, SDLK_CLEAR,
    SDLK_RETURN, SDLK_UP, SDLK_DOWN, SDLK_LEFT, SDLK_RIGHT]
  split_ifs <;> first | rfl | omega

theorem and_eq_zero_of_or_left {a b f : Nat} (h : (a ||| b) &&& f = 0) : a &&& f = 0 := by
  apply Nat.eq_of_testBit_eq
  intro i
  have hi := congrArg (fun n => n.testBit i) h
  simp only [Nat.testBit_and, Nat.testBit_or, Nat.zero_testBit] at hi ⊢
  cases ha : a.testBit i <;> cases hf : f.testBit i <;> simp_all

theorem and_eq_zero_of_or_right {a b f : Nat} (h : (a ||| b) &&& f = 0) : b &&& f = 0 := by
  rw [Nat.lor_comm] at h
  exact and_eq_zero_of_or_left h

theorem or_and_eq_zero {a b f : Nat} (ha : a &&& f = 0) (hb : b &&& f = 0) :
    (a ||| b) &&& f = 0 := by
  apply Nat.eq_of_testBit_eq
  intro i
  have hi := congrArg (fun n => n.testBit i) ha
  have hj := congrArg (fun n => n.testBit i) hb
  simp only [Nat.testBit_and, Nat.testBit_or, Nat.zero_testBit] at hi hj ⊢
  cases h1 : a.testBit i <;> cases h2 : b.testBit i <;> cases hf : f.testBit i <;> simp_all

theorem or_and_self_right (a f : Nat) : (a ||| f) &&& f = f := by
  apply Nat.eq_of_testBit_eq
  intro i
  simp only [Nat.testBit_and, Nat.testBit_or]
  cases a.testBit i <;> cases f.testBit i <;> rfl

/-- The loop of `get_modifiers` started at 0 never sets a bit of a mask that is disjoint
from the three masks of the table. -/
theorem modifiers_loop_disjoint (mk : ModifierKeys) (mod f : Nat)
    (h : (mk.kShift_ModifierKey ||| mk.kControl_ModifierKey ||| mk.kOption_ModifierKey) &&& f
          = 0) :
    modifiers_loop mod 0 (gModifiers mk) &&& f = 0 := by
  have hs : mk.kShift_ModifierKey &&& f = 0 := and_eq_zero_of_or_left (and_eq_zero_of_or_left h)
  have hc : mk.kControl_ModifierKey &&& f = 0 :=
    and_eq_zero_of_or_right (and_eq_zero_of_or_left h)
  have ho : mk.kOption_ModifierKey &&& f = 0 := and_eq_zero_of_or_right h
  have h0 : (0 : Nat) &&& f = 0 := Nat.zero_and f
  simp only [modifiers_loop, gModifiers]
  split_ifs <;>
    first
    | exact h0
    | exact or_and_eq_zero h0 hs
    | exact or_and_eq_zero h0 hc
    | exact or_and_eq_zero h0 ho
    | exact or_and_eq_zero (or_and_eq_zero h0 hs) hc
    | exact or_and_eq_zero (or_and_eq_zero h0 hs) ho
    | exact or_and_eq_zero (or_and_eq_zero h0 hc) ho
    | exact or_and_eq_zero (or_and_eq_zero (or_and_eq_zero h0 hs) hc) ho

/-- For a key event the first-press bit is in the result of `get_modifiers` exactly when
the repeat field is 0, provided the bit is not part of the other three masks. -/
theorem get_modifiers_firstPress (mk : ModifierKeys) (modState : Nat) (event : SDL_Event)
    (hbit : mk.kFirstPress_ModifierKey ≠ 0)
    (hdisj : (mk.kShift_ModifierKey ||| mk.kControl_ModifierKey ||| mk.kOption_ModifierKey)
              &&& mk.kFirstPress_ModifierKey = 0)
    (hkey : event.type = SDL_KEYDOWN ∨ event.type = SDL_KEYUP) :
    get_modifiers mk modState event &&& mk.kFirstPress_ModifierKey
        = mk.kFirstPress_ModifierKey ↔ event.key_repeat = 0 := by
  have hloop := modifiers_loop_disjoint mk event.key_mod mk.kFirstPress_ModifierKey hdisj
  unfold get_modifiers
  rw [if_pos hkey]
  by_cases hr : event.key_repeat = 0
  · simp only [hr, if_true, or_and_self_right]
  · have hr2 : ¬ (0 = event.key_repeat) := fun h => hr h.symm
    simp only [hr2, if_false, hloop, hr, iff_false]
    exact fun h => hbit h.symm

/-- C10: for a key-down or key-up whose keycode is not Escape, `get_key` is the table of
the claim, `handleEvent` returns false, and its callbacks are: `onKey` with the mapped
key and the Down or Up state when the keycode is in the table; `onChar` with the raw
keycode for a key-down outside the table; nothing for a key-up outside the table; so at
most one callback.  The modifiers passed are those of `get_modifiers`, which contain the
first-press bit exactly when the repeat field is 0 (the bit being a non-zero mask apart
from the shift, control and option masks). -/
theorem handleEvent_key_translation (mk : ModifierKeys) (modState : Nat) (event : SDL_Event)
    (hbit : mk.kFirstPress_ModifierKey ≠ 0)
    (hdisj : (mk.kShift_ModifierKey ||| mk.kControl_ModifierKey ||| mk.kOption_ModifierKey)
              &&& mk.kFirstPress_ModifierKey = 0)
    (hkey : event.type = SDL_KEYDOWN ∨ event.type = SDL_KEYUP)
    (hesc : event.key_sym ≠ SDLK_ESCAPE) :
    get_key event.key_sym = claimedKeyTable event.key_sym ∧
    (handleEvent mk modState event).1 = false ∧
    (handleEvent mk modState event).2 =
      (if claimedKeyTable event.key_sym ≠ Key.kNONE then
        [Callback.onKey (claimedKeyTable event.key_sym)
          (if event.type = SDL_KEYDOWN then InputState.kDown_InputState
           else InputState.kUp_InputState)
          (get_modifiers mk modState event)]
       else if event.type = SDL_KEYDOWN then
        [Callback.onChar event.key_sym (get_modifiers mk modState event)]
       else []) ∧
    (handleEvent mk modState event).2.length ≤ 1 ∧
    (get_modifiers mk modState event &&& mk.kFirstPress_ModifierKey
        = mk.kFirstPress_ModifierKey ↔ event.key_repeat = 0) := by
  have hne : SDL_KEYDOWN ≠ SDL_WINDOWEVENT ∧ SDL_KEYDOWN ≠ SDL_MOUSEBUTTONDOWN ∧
      SDL_KEYDOWN ≠ SDL_MOUSEBUTTONUP ∧ SDL_KEYDOWN ≠ SDL_MOUSEMOTION ∧
      SDL_KEYUP ≠ SDL_WINDOWEVENT ∧ SDL_KEYUP ≠ SDL_MOUSEBUTTONDOWN ∧
      SDL_KEYUP ≠ SDL_MOUSEBUTTONUP ∧ SDL_KEYUP ≠ SDL_MOUSEMOTION ∧
      SDL_KEYUP ≠ SDL_KEYDOWN := by decide
  obtain ⟨d1, d2, d3, d4, u1, u2, u3, u4, u5⟩ := hne
  have htab := get_key_eq_claimedKeyTable event.key_sym
  have hcalls : (handleEvent mk modState event).1 = false ∧
      (handleEvent mk modState event).2 =
        (if claimedKeyTable event.key_sym ≠ Key.kNONE then
          [Callback.onKey (claimedKeyTable event.key_sym)
            (if event.type = SDL_KEYDOWN then InputState.kDown_InputState
             else InputState.kUp_InputState)
            (get_modifiers mk modState event)]
         else if event.type = SDL_KEYDOWN then
          [Callback.onChar event.key_sym (get_modifiers mk modState event)]
         else []) := by
    rcases hkey with hd | hu
    · by_cases hk : claimedKeyTable event.key_sym = Key.kNONE <;>
        simp [handleEvent, hd, d1, d2, d3, d4, hesc, htab, hk]
    · by_cases hk : claimedKeyTable event.key_sym = Key.kNONE <;>
        simp [handleEvent, hu, u1, u2, u3, u4, u5, htab, hk]
  refine ⟨htab, hcalls.1, hcalls.2, ?_, get_modifiers_firstPress mk modState event hbit hdisj hkey⟩
  rw [hcalls.2]
  split_ifs <;> simp

theorem handleEvent_key_translation_witness :
    (handleEvent sampleModifierKeys 0
        { zeroEvent with type := SDL_KEYDOWN, key_sym := SDLK_UP, key_mod := 1 }).2
      = [Callback.onKey Key.kUp InputState.kDown_InputState 17] := by
  have h := (handleEvent_key_translation sampleModifierKeys 0
    { zeroEvent with type := SDL_KEYDOWN, key_sym := SDLK_UP, key_mod := 1 }
    (by decide) (by decide) (Or.inl rfl) (by decide)).2.2.1
  rw [h]
  decide

/-! ## Creating the window -/

theorem setGLAttributes_eq (params : Option DisplayParams) (g : Globals) :
    setGLAttributes params g = g.emit (attributeCalls params) := by
  cases params with
  | none => simp [setGLAttributes, attributeCalls, SDL_GL_SetAttribute, Globals.emit, emptyGlobals]
  | some p =>
    by_cases hp : p.fMSAASampleCount > 0 <;>
      simp [setGLAttributes, attributeCalls, SDL_GL_SetAttribute, Globals.emit, emptyGlobals, hp]

theorem openWindow_of_null_failure (this : WindowRef) (params : Option DisplayParams)
    (self : Window_mac) (g : Globals) (h : self.fWindow = none) :
    openWindow this params none self g
      = (false, { self with fWidth := 1280, fHeight := 960 },
         g.emit (attributeCalls params ++ [createCall none])) := by
  simp [openWindow, h, setGLAttributes_eq, SDL_CreateWindow, Globals.emit, createCall]

theorem openWindow_of_null_success (this : WindowRef) (params : Option DisplayParams)
    (nw : SDL_Window) (self : Window_mac) (g : Globals) (h : self.fWindow = none) :
    openWindow this params (some nw) self g
      = (true, { self with fWidth := 1280, fHeight := 960, fWindow := some nw, fWindowID := nw.id },
         { g with
           gWindowMap := (nw.id, this) :: g.gWindowMap,
           live := nw :: g.live,
           trace := g.trace ++ (attributeCalls params
                      ++ [createCall (some nw), Effect.mapAdd nw.id this]) }) := by
  simp [openWindow, h, setGLAttributes_eq, SDL_CreateWindow, Globals.emit, createCall,
    gWindowMap_add, SDL_GetWindowID, SkTDynamicHash.add]

theorem closeWindow_of_window (self : Window_mac) (g : Globals) (old : SDL_Window)
    (h : self.fWindow = some old) :
    closeWindow self g
      = ({ self with fWindowID := 0, fWindow := none },
         { g with
           gWindowMap := SkTDynamicHash.remove self.fWindowID g.gWindowMap,
           live := g.live.filter (fun x => decide (x ≠ old)),
           trace := g.trace ++ [Effect.mapRemove self.fWindowID, Effect.SDL_DestroyWindow old] }) := by
  simp [closeWindow, h, gWindowMap_remove, SDL_DestroyWindow]

/-- C4: an adapter that holds a window `old` under the ID `fWindowID` and is initialised
with params whose sample count differs from the stored one first closes: the rest of
`initWindow` runs on the closed adapter, in globals where the table entry under the old ID
has been removed and `old` is no longer live; the trace gains, in this order, the removal
from the table, the destruction of `old`, the attribute calls, one creation call and (on
success) the registration.  When creation succeeds the call returns true, the adapter
holds the new window and its ID, and the table finds the adapter under the new ID. -/
theorem initWindow_recreates_on_mismatch (this : WindowRef) (p : DisplayParams)
    (created : Option SDL_Window) (self : Window_mac) (g : Globals) (old : SDL_Window)
    (hwin : self.fWindow = some old)
    (hp : p.fMSAASampleCount ≠ self.fMSAASampleCount) :
    initWindow this (some p) created self g
        = openWindow this (some p) created (closeWindow self g).1 (closeWindow self g).2 ∧
    (closeWindow self g).1.fWindow = none ∧
    (closeWindow self g).2.gWindowMap = SkTDynamicHash.remove self.fWindowID g.gWindowMap ∧
    old ∉ (closeWindow self g).2.live ∧
    (initWindow this (some p) created self g).2.2.trace
        = g.trace ++ [Effect.mapRemove self.fWindowID, Effect.SDL_DestroyWindow old]
            ++ attributeCalls (some p) ++ [createCall created]
            ++ (match created with
                | some nw => [Effect.mapAdd nw.id this]
                | none => []) ∧
    (∀ nw, created = some nw →
      (initWindow this (some p) created self g).1 = true ∧
      (initWindow this (some p) created self g).2.1.fWindow = some nw ∧
      (initWindow this (some p) created self g).2.1.fWindowID = nw.id ∧
      (initWindow this (some p) created self g).2.2.gWindowMap
          = (nw.id, this) :: SkTDynamicHash.remove self.fWindowID g.gWindowMap ∧
      SkTDynamicHash.find nw.id (initWindow this (some p) created self g).2.2.gWindowMap
          = some this) := by
  have hinit : initWindow this (some p) created self g
      = openWindow this (some p) created (closeWindow self g).1 (closeWindow self g).2 := by
    unfold initWindow
    rw [closeOnMismatch_of_mismatch p self g hp]
  have hnull := closeWindow_fWindow self g
  refine ⟨hinit, hnull, ?_, ?_, ?_, ?_⟩
  · rw [closeWindow_of_window self g old hwin]
  · rw [closeWindow_of_window self g old hwin]
    simp
  · rw [hinit]
    cases created with
    | none =>
      rw [openWindow_of_null_failure this (some p) _ _ hnull, closeWindow_of_window self g old hwin]
      simp [Globals.emit]
    | some nw =>
      rw [openWindow_of_null_success this (some p) nw _ _ hnull,
        closeWindow_of_window self g old hwin]
      simp
  · intro nw hnw
    subst hnw
    rw [hinit, openWindow_of_null_success this (some p) nw _ _ hnull,
      closeWindow_of_window self g old hwin]
    simp [SkTDynamicHash.find]

theorem initWindow_recreates_on_mismatch_witness :
    (initWindow 0 (some ⟨4⟩) (some ⟨200, 2⟩) openAdapter openGlobals).2.2.trace
      = [Effect.mapRemove 1, Effect.SDL_DestroyWindow ⟨100, 1⟩]
          ++ attributeCalls (some ⟨4⟩) ++ [createCall (some ⟨200, 2⟩)]
          ++ [Effect.mapAdd 2 0] :=
  (initWindow_recreates_on_mismatch 0 ⟨4⟩ (some ⟨200, 2⟩) openAdapter openGlobals ⟨100, 1⟩ rfl
    (by decide)).2.2.2.2.1

/-! ## Calling `initWindow` twice -/

theorem initWindow_fMSAASampleCount (this : WindowRef) (params : Option DisplayParams)
    (created : Option SDL_Window) (self : Window_mac) (g : Globals) :
    (initWindow this params created self g).2.1.fMSAASampleCount = self.fMSAASampleCount := by
  have hc : (closeOnMismatch params self g).1.fMSAASampleCount = self.fMSAASampleCount := by
    unfold closeOnMismatch
    cases params with
    | none => rfl
    | some q =>
      by_cases hq : q.fMSAASampleCount = self.fMSAASampleCount
      · simp [hq]
      · simp [hq, closeWindow_fMSAASampleCount]
  unfold initWindow
  rw [← hc]
  generalize closeOnMismatch params self g = s
  cases hw : s.1.fWindow with
  | some win => rw [openWindow_of_window this params created s.1 s.2 win hw]
  | none =>
    cases created with
    | none => rw [openWindow_of_null_failure this params s.1 s.2 hw]
    | some nw => rw [openWindow_of_null_success this params nw s.1 s.2 hw]

/-- What `initWindow` leaves behind, by its result: a window after true; no window and the
default dimensions after false. -/
theorem initWindow_result (this : WindowRef) (params : Option DisplayParams)
    (created : Option SDL_Window) (self : Window_mac) (g : Globals) :
    ((initWindow this params created self g).1 = true →
      ∃ win, (initWindow this params created self g).2.1.fWindow = some win) ∧
    ((initWindow this params created self g).1 = false →
      (initWindow this params created self g).2.1.fWindow = none ∧
      (initWindow this params created self g).2.1.fWidth = 1280 ∧
      (initWindow this params created self g).2.1.fHeight = 960 ∧
      created = none) := by
  unfold initWindow
  generalize closeOnMismatch params self g = s
  cases hw : s.1.fWindow with
  | some win =>
    rw [openWindow_of_window this params created s.1 s.2 win hw]
    exact ⟨fun _ => ⟨win, hw⟩, fun h => by simp at h⟩
  | none =>
    cases created with
    | none =>
      rw [openWindow_of_null_failure this params s.1 s.2 hw]
      exact ⟨fun h => by simp at h, fun _ => ⟨hw, rfl, rfl, rfl⟩⟩
    | some nw =>
      rw [openWindow_of_null_success this params nw s.1 s.2 hw]
      exact ⟨fun _ => ⟨nw, rfl⟩, fun h => by simp at h⟩

theorem closeOnMismatch_of_null (params : Option DisplayParams) (self : Window_mac)
    (g : Globals) (h : self.fWindow = none) : closeOnMismatch params self g = (self, g) := by
  cases params with
  | none => rfl
  | some q =>
    by_cases hq : q.fMSAASampleCount = self.fMSAASampleCount
    · simp [closeOnMismatch, hq]
    · rw [closeOnMismatch_of_mismatch q self g hq]
      exact closeWindow_of_null self g h

theorem initWindow_of_null (this : WindowRef) (params : Option DisplayParams)
    (created : Option SDL_Window) (self : Window_mac) (g : Globals)
    (h : self.fWindow = none) :
    initWindow this params created self g = openWindow this params created self g := by
  unfold initWindow
  rw [closeOnMismatch_of_null params self g h]

/-- A call of `initWindow` that returns false has reached `SDL_CreateWindow` with an
adapter without a window and got a null pointer. -/
theorem initWindow_of_false (this : WindowRef) (params : Option DisplayParams)
    (created : Option SDL_Window) (self : Window_mac) (g : Globals)
    (h : (initWindow this params created self g).1 = false) :
    created = none ∧ (closeOnMismatch params self g).1.fWindow = none ∧
    initWindow this params created self g
      = (false, { (closeOnMismatch params self g).1 with fWidth := 1280, fHeight := 960 },
         (closeOnMismatch params self g).2.emit (attributeCalls params ++ [createCall none])) := by
  unfold initWindow at h ⊢
  generalize closeOnMismatch params self g = s at h ⊢
  cases hw : s.1.fWindow with
  | some win =>
    rw [openWindow_of_window this params created s.1 s.2 win hw] at h
    simp at h
  | none =>
    cases created with
    | none => exact ⟨rfl, rfl, openWindow_of_null_failure this params s.1 s.2 hw⟩
    | some nw =>
      rw [openWindow_of_null_success this params nw s.1 s.2 hw] at h
      simp at h

/-- A defect of `initWindow`: it compares the requested sample count with
`fMSAASampleCount` (line 28) but no line stores the requested count.  Adapter 0 holds
window 100 with stored count 0 and is initialised twice with count 4: the first call
replaces the window by window 200, the second call destroys window 200, which the first
call has just created, and creates window 300. -/
theorem initWindow_mismatch_repeats_teardown :
    (initWindow 0 (some ⟨4⟩) (some ⟨200, 2⟩) openAdapter openGlobals).2.1.fWindow
        = some ⟨200, 2⟩ ∧
    (initWindow 0 (some ⟨4⟩) (some ⟨200, 2⟩) openAdapter openGlobals).2.1.fMSAASampleCount
        = 0 ∧
    (initWindowTwice 0 (some ⟨4⟩) (some ⟨200, 2⟩) (some ⟨300, 3⟩) openAdapter
        openGlobals).2.1.fWindow = some ⟨300, 3⟩ ∧
    (initWindowTwice 0 (some ⟨4⟩) (some ⟨200, 2⟩) (some ⟨300, 3⟩) openAdapter
        openGlobals).2.2.gWindowMap = [(3, 0)] ∧
    (initWindowTwice 0 (some ⟨4⟩) (some ⟨200, 2⟩) (some ⟨300, 3⟩) openAdapter
        openGlobals).2.2.trace
        = (initWindow 0 (some ⟨4⟩) (some ⟨200, 2⟩) openAdapter openGlobals).2.2.trace
            ++ [Effect.mapRemove 2, Effect.SDL_DestroyWindow ⟨200, 2⟩]
            ++ attributeCalls (some ⟨4⟩)
            ++ [createCall (some ⟨300, 3⟩), Effect.mapAdd 3 0] := by
  decide

/-- C1, as stated, fails by design: `initWindow` keeps no record of a failed attempt.  An
adapter without a window is initialised twice with null params, SDL failing the first
creation and granting the second: the first call returns false and leaves no window, an
empty table and no live window; the second call creates window 200, so after two calls
the adapter holds it and is registered under ID 2, unlike after one call. -/
theorem initWindow_twice_differs :
    (initWindow 0 none none closedAdapter emptyGlobals).1 = false ∧
    (initWindow 0 none none closedAdapter emptyGlobals).2.1.fWindow = none ∧
    (initWindow 0 none none closedAdapter emptyGlobals).2.2.gWindowMap = [] ∧
    (initWindow 0 none none closedAdapter emptyGlobals).2.2.live = [] ∧
    (initWindowTwice 0 none none (some ⟨200, 2⟩) closedAdapter emptyGlobals).1 = true ∧
    (initWindowTwice 0 none none (some ⟨200, 2⟩) closedAdapter emptyGlobals).2.1.fWindow
        = some ⟨200, 2⟩ ∧
    (initWindowTwice 0 none none (some ⟨200, 2⟩) closedAdapter emptyGlobals).2.2.gWindowMap
        = [(2, 0)] ∧
    (initWindowTwice 0 none none (some ⟨200, 2⟩) closedAdapter emptyGlobals).2.2.live
        = [⟨200, 2⟩] ∧
    (initWindowTwice 0 none none (some ⟨200, 2⟩) closedAdapter emptyGlobals).2.1
        ≠ (initWindow 0 none none closedAdapter emptyGlobals).2.1 ∧
    (initWindowTwice 0 none none (some ⟨200, 2⟩) closedAdapter emptyGlobals).2.2.gWindowMap
        ≠ (initWindow 0 none none closedAdapter emptyGlobals).2.2.gWindowMap := by
  decide

/-- C1, amended.  Leave open the one case in which the first call returns true for params
whose sample count differs from the stored one.  In every other case, for every adapter
state, params and answers of SDL: after a first call that returned true, the second call
returns true and changes nothing at all (adapter, table, live windows, trace: no SDL
call).  After a first call that returned false, the second call makes one more creation
attempt and leaves adapter, table and live windows as a single call with that answer
would; when that attempt fails too, the second call returns false, adapter, table and
live windows are as the first call left them (no window is created or destroyed), and
its only effects are its attribute calls and one failed creation call. -/
theorem initWindow_twice (this : WindowRef) (params : Option DisplayParams)
    (c1 c2 : Option SDL_Window) (self : Window_mac) (g : Globals)
    (hcase : (initWindow this params c1 self g).1 = false ∨
      ∀ q, params = some q → q.fMSAASampleCount = self.fMSAASampleCount) :
    ((initWindow this params c1 self g).1 = true →
      initWindowTwice this params c1 c2 self g = initWindow this params c1 self g) ∧
    ((initWindow this params c1 self g).1 = false →
      (initWindowTwice this params c1 c2 self g).1 = (initWindow this params c2 self g).1 ∧
      (initWindowTwice this params c1 c2 self g).2.1 = (initWindow this params c2 self g).2.1 ∧
      (initWindowTwice this params c1 c2 self g).2.2.gWindowMap
          = (initWindow this params c2 self g).2.2.gWindowMap ∧
      (initWindowTwice this params c1 c2 self g).2.2.live
          = (initWindow this params c2 self g).2.2.live) ∧
    ((initWindow this params c1 self g).1 = false → c2 = none →
      (initWindowTwice this params c1 c2 self g).1 = false ∧
      (initWindowTwice this params c1 c2 self g).2.1 = (initWindow this params c1 self g).2.1 ∧
      (initWindowTwice this params c1 c2 self g).2.2.gWindowMap
          = (initWindow this params c1 self g).2.2.gWindowMap ∧
      (initWindowTwice this params c1 c2 self g).2.2.live
          = (initWindow this params c1 self g).2.2.live ∧
      (initWindowTwice this params c1 c2 self g).2.2.trace
          = (initWindow this params c1 self g).2.2.trace
              ++ attributeCalls params ++ [createCall none]) := by
  have after_false : (initWindow this params c1 self g).1 = false →
      initWindowTwice this params c1 c2 self g
        = openWindow this params c2
            { (closeOnMismatch params self g).1 with fWidth := 1280, fHeight := 960 }
            ((closeOnMismatch params self g).2.emit (attributeCalls params ++ [createCall none])) ∧
      (closeOnMismatch params self g).1.fWindow = none ∧
      initWindow this params c1 self g
        = (false, { (closeOnMismatch params self g).1 with fWidth := 1280, fHeight := 960 },
           (closeOnMismatch params self g).2.emit
             (attributeCalls params ++ [createCall none])) := by
    intro hfalse
    obtain ⟨_, hnull, hr1⟩ := initWindow_of_false this params c1 self g hfalse
    refine ⟨?_, hnull, hr1⟩
    unfold initWindowTwice
    rw [hr1]
    exact initWindow_of_null this params c2 _ _ hnull
  have hone : initWindow this params c2 self g
      = openWindow this params c2 (closeOnMismatch params self g).1
          (closeOnMismatch params self g).2 := rfl
  refine ⟨?_, ?_, ?_⟩
  · intro htrue
    have hp : ∀ q, params = some q → q.fMSAASampleCount = self.fMSAASampleCount := by
      rcases hcase with h | h
      · rw [htrue] at h
        cases h
      · exact h
    have hcount := initWindow_fMSAASampleCount this params c1 self g
    obtain ⟨win, hwin⟩ := (initWindow_result this params c1 self g).1 htrue
    unfold initWindowTwice
    rw [initWindow_of_window_same_count this params c2 _ _ win hwin (by
      intro q hq
      rw [hcount]
      exact hp q hq)]
    rw [← htrue]
  · intro hfalse
    obtain ⟨htwice, hnull, _⟩ := after_false hfalse
    cases c2 with
    | none =>
      have e1 := htwice.trans (openWindow_of_null_failure this params
        { (closeOnMismatch params self g).1 with fWidth := 1280, fHeight := 960 }
        ((closeOnMismatch params self g).2.emit (attributeCalls params ++ [createCall none]))
        hnull)
      have e2 := hone.trans (openWindow_of_null_failure this params
        (closeOnMismatch params self g).1 (closeOnMismatch params self g).2 hnull)
      rw [e1, e2]
      exact ⟨rfl, rfl, rfl, rfl⟩
    | some nw =>
      have e1 := htwice.trans (openWindow_of_null_success this params nw
        { (closeOnMismatch params self g).1 with fWidth := 1280, fHeight := 960 }
        ((closeOnMismatch params self g).2.emit (attributeCalls params ++ [createCall none]))
        hnull)
      have e2 := hone.trans (openWindow_of_null_success this params nw
        (closeOnMismatch params self g).1 (closeOnMismatch params self g).2 hnull)
      rw [e1, e2]
      exact ⟨rfl, rfl, rfl, rfl⟩
  · intro hfalse hc2
    subst hc2
    obtain ⟨htwice, hnull, hr1⟩ := after_false hfalse
    have e1 := htwice.trans (openWindow_of_null_failure this params
      { (closeOnMismatch params self g).1 with fWidth := 1280, fHeight := 960 }
      ((closeOnMismatch params self g).2.emit (attributeCalls params ++ [createCall none]))
      hnull)
    rw [e1, hr1]
    refine ⟨rfl, rfl, rfl, rfl, ?_⟩
    simp [Globals.emit]

theorem initWindow_twice_witness :
    (initWindowTwice 0 (some ⟨4⟩) none none openAdapter openGlobals).2.1
        = (initWindow 0 (some ⟨4⟩) none openAdapter openGlobals).2.1 ∧
    initWindowTwice 0 none (some ⟨200, 2⟩) (some ⟨300, 3⟩) closedAdapter emptyGlobals
        = initWindow 0 none (some ⟨200, 2⟩) closedAdapter emptyGlobals :=
  ⟨((initWindow_twice 0 (some ⟨4⟩) none none openAdapter openGlobals
      (Or.inl (by decide))).2.2 (by decide) rfl).2.1,
   (initWindow_twice 0 none (some ⟨200, 2⟩) (some ⟨300, 3⟩) closedAdapter emptyGlobals
      (Or.inr (by intro q hq; cases hq))).1 (by decide)⟩

/-! ## The invariant is kept by every step -/

theorem World.getElem?_put (w : World) (this ref : WindowRef) (self s : Window_mac)
    (g : Globals) (hself : w.heap[this]? = some self) :
    (w.put this s g).heap[ref]? = if ref = this then some s else w.heap[ref]? := by
  obtain ⟨hlt, _⟩ := List.getElem?_eq_some.1 hself
  unfold World.put
  simp only [List.getElem?_set]
  by_cases h : ref = this
  · subst h
    simp [hlt]
  · have h2 : ¬ this = ref := fun e => h e.symm
    simp [h, h2]

theorem World.put_put (w : World) (this : WindowRef) (s1 s2 : Window_mac) (g1 g2 : Globals) :
    (w.put this s1 g1).put this s2 g2 = w.put this s2 g2 := by
  simp [World.put, List.set_set]

/-- The invariant reads only the table, the live windows, and the handle and ID of each
adapter. -/
theorem Inv.congr {w w2 : World} (hinv : Inv w)
    (hmap : w2.g.gWindowMap = w.g.gWindowMap) (hlive : w2.g.live = w.g.live)
    (hheap : ∀ ref : WindowRef,
      (w2.heap[ref]?).map (fun s => (s.fWindow, s.fWindowID))
        = (w.heap[ref]?).map (fun s => (s.fWindow, s.fWindowID))) : Inv w2 := by
  have fwd : ∀ (ref : WindowRef) (s2 : Window_mac), w2.heap[ref]? = some s2 →
      ∃ s, w.heap[ref]? = some s ∧ s.fWindow = s2.fWindow ∧ s.fWindowID = s2.fWindowID := by
    intro ref s2 h
    have hr := hheap ref
    rw [h] at hr
    cases hx : w.heap[ref]? with
    | none => rw [hx] at hr; simp at hr
    | some s =>
      rw [hx] at hr
      simp only [Option.map_some', Option.some.injEq, Prod.mk.injEq] at hr
      exact ⟨s, rfl, hr.1.symm, hr.2.symm⟩
  have bwd : ∀ (ref : WindowRef) (s : Window_mac), w.heap[ref]? = some s →
      ∃ s2, w2.heap[ref]? = some s2 ∧ s2.fWindow = s.fWindow ∧ s2.fWindowID = s.fWindowID := by
    intro ref s h
    have hr := hheap ref
    rw [h] at hr
    cases hx : w2.heap[ref]? with
    | none => rw [hx] at hr; simp at hr
    | some s2 =>
      rw [hx] at hr
      simp only [Option.map_some', Option.some.injEq, Prod.mk.injEq] at hr
      exact ⟨s2, rfl, hr.1, hr.2⟩
  refine ⟨?_, ?_, ?_⟩
  · intro k ref
    rw [hmap, hinv.entry_iff]
    constructor
    · rintro ⟨s, win, hs, hw, hk⟩
      obtain ⟨s2, hs2, e1, e2⟩ := bwd ref s hs
      exact ⟨s2, win, hs2, e1.trans hw, e2.trans hk⟩
    · rintro ⟨s2, win, hs2, hw, hk⟩
      obtain ⟨s, hs, e1, e2⟩ := fwd ref s2 hs2
      exact ⟨s, win, hs, e1.trans hw, e2.trans hk⟩
  · rw [hmap]
    exact hinv.keys_nodup
  · intro ref s2 win hs2 hw
    obtain ⟨s, hs, e1, e2⟩ := fwd ref s2 hs2
    rw [hlive, ← e2]
    exact hinv.window_live ref s win hs (e1.trans hw)

/-- Under the invariant two adapters that hold windows under the same ID are the same. -/
theorem Inv.same_of_same_id {w : World} (hinv : Inv w) (r1 r2 : WindowRef)
    (s1 s2 : Window_mac) (w1 w2 : SDL_Window)
    (h1 : w.heap[r1]? = some s1) (h2 : w.heap[r2]? = some s2)
    (hw1 : s1.fWindow = some w1) (hw2 : s2.fWindow = some w2)
    (hid : s1.fWindowID = s2.fWindowID) : r1 = r2 := by
  have m1 : (s1.fWindowID, r1) ∈ w.g.gWindowMap := (hinv.entry_iff _ _).2 ⟨s1, w1, h1, hw1, rfl⟩
  have m2 : (s1.fWindowID, r2) ∈ w.g.gWindowMap := (hinv.entry_iff _ _).2 ⟨s2, w2, h2, hw2, hid.symm⟩
  have f1 := SkTDynamicHash.find_of_mem _ _ _ hinv.keys_nodup m1
  have f2 := SkTDynamicHash.find_of_mem _ _ _ hinv.keys_nodup m2
  rw [f1] at f2
  exact Option.some.inj f2

theorem inv_closeWindow {w : World} (hinv : Inv w) (this : WindowRef) (self : Window_mac)
    (hself : w.heap[this]? = some self) :
    Inv (w.put this (closeWindow self w.g).1 (closeWindow self w.g).2) := by
  cases hw : self.fWindow with
  | none =>
    rw [closeWindow_of_null self w.g hw]
    refine hinv.congr rfl rfl ?_
    intro ref
    rw [World.getElem?_put w this ref self self w.g hself]
    split_ifs with h
    · rw [h, hself]
    · rfl
  | some old =>
    rw [closeWindow_of_window self w.g old hw]
    have hget := fun ref => World.getElem?_put w this ref self
      { self with fWindowID := 0, fWindow := none }
      { w.g with
        gWindowMap := SkTDynamicHash.remove self.fWindowID w.g.gWindowMap,
        live := w.g.live.filter (fun x => decide (x ≠ old)),
        trace := w.g.trace ++ [Effect.mapRemove self.fWindowID, Effect.SDL_DestroyWindow old] }
      hself
    refine ⟨?_, ?_, ?_⟩
    · intro k ref
      rw [hget ref]
      simp only [World.put]
      rw [SkTDynamicHash.mem_remove _ _ _ hinv.keys_nodup, hinv.entry_iff]
      constructor
      · rintro ⟨⟨s, win, hs, hwin, hk⟩, hne⟩
        have hr : ref ≠ this := by
          intro e
          subst e
          rw [hself] at hs
          cases hs
          exact hne hk.symm
        rw [if_neg hr]
        exact ⟨s, win, hs, hwin, hk⟩
      · rintro ⟨s, win, hs, hwin, hk⟩
        split_ifs at hs with hr
        · cases hs
          simp at hwin
        · refine ⟨⟨s, win, hs, hwin, hk⟩, ?_⟩
          intro e
          apply hr
          exact hinv.same_of_same_id ref this s self win old hs hself hwin hw (hk.trans e)
    · simp only [World.put]
      exact ((SkTDynamicHash.remove_sublist _ _).map Prod.fst).nodup hinv.keys_nodup
    · intro ref s win hs hwin
      rw [hget ref] at hs
      simp only [World.put]
      split_ifs at hs with hr
      · cases hs
        simp at hwin
      · obtain ⟨hl, hid⟩ := hinv.window_live ref s win hs hwin
        refine ⟨?_, hid⟩
        rw [List.mem_filter]
        refine ⟨hl, ?_⟩
        simp only [decide_eq_true_eq]
        intro e
        subst e
        apply hr
        have hid2 := (hinv.window_live this self win hself hw).2
        exact hinv.same_of_same_id ref this s self win win hs hself hwin hw (hid.trans hid2.symm)

theorem inv_openWindow {w : World} (hinv : Inv w) (this : WindowRef) (self : Window_mac)
    (params : Option DisplayParams) (created : Option SDL_Window)
    (hself : w.heap[this]? = some self)
    (hfresh : self.fWindow = none → ∀ nw, created = some nw → ∀ x ∈ w.g.live, x.id ≠ nw.id) :
    Inv (w.put this (openWindow this params created self w.g).2.1
          (openWindow this params created self w.g).2.2) := by
  cases hw : self.fWindow with
  | some win =>
    rw [openWindow_of_window this params created self w.g win hw]
    refine hinv.congr rfl rfl ?_
    intro ref
    rw [World.getElem?_put w this ref self self w.g hself]
    split_ifs with h
    · rw [h, hself]
    · rfl
  | none =>
    cases created with
    | none =>
      rw [openWindow_of_null_failure this params self w.g hw]
      refine hinv.congr rfl rfl ?_
      intro ref
      rw [World.getElem?_put w this ref self _ _ hself]
      split_ifs with h
      · rw [h, hself]
        rfl
      · rfl
    | some nw =>
      rw [openWindow_of_null_success this params nw self w.g hw]
      have hget := fun ref => World.getElem?_put w this ref self
        { self with fWidth := 1280, fHeight := 960, fWindow := some nw, fWindowID := nw.id }
        { w.g with
          gWindowMap := (nw.id, this) :: w.g.gWindowMap,
          live := nw :: w.g.live,
          trace := w.g.trace ++ (attributeCalls params
                      ++ [createCall (some nw), Effect.mapAdd nw.id this]) }
        hself
      have hnew := hfresh hw nw rfl
      refine ⟨?_, ?_, ?_⟩
      · intro k ref
        rw [hget ref]
        simp only [World.put, List.mem_cons, Prod.mk.injEq]
        rw [hinv.entry_iff]
        constructor
        · rintro (⟨hk, hr⟩ | ⟨s, win, hs, hwin, hk⟩)
          · subst hk hr
            rw [if_pos rfl]
            exact ⟨_, nw, rfl, rfl, rfl⟩
          · have hr : ref ≠ this := by
              intro e
              subst e
              rw [hself] at hs
              cases hs
              rw [hw] at hwin
              cases hwin
            rw [if_neg hr]
            exact ⟨s, win, hs, hwin, hk⟩
        · rintro ⟨s, win, hs, hwin, hk⟩
          split_ifs at hs with hr
          · cases hs
            exact Or.inl ⟨hk.symm, hr⟩
          · exact Or.inr ⟨s, win, hs, hwin, hk⟩
      · simp only [World.put, List.map_cons, List.nodup_cons]
        refine ⟨?_, hinv.keys_nodup⟩
        intro hmem
        obtain ⟨e, he, hk⟩ := List.mem_map.1 hmem
        obtain ⟨k, ref⟩ := e
        simp only at hk
        subst hk
        obtain ⟨s, win, hs, hwin, hid⟩ := (hinv.entry_iff _ _).1 he
        obtain ⟨hl, hid2⟩ := hinv.window_live ref s win hs hwin
        exact hnew win hl (hid2.symm.trans hid)
      · intro ref s win hs hwin
        rw [hget ref] at hs
        simp only [World.put]
        split_ifs at hs with hr
        · cases hs
          simp only [Option.some.injEq] at hwin
          subst hwin
          exact ⟨List.mem_cons_self _ _, rfl⟩
        · obtain ⟨hl, hid⟩ := hinv.window_live ref s win hs hwin
          exact ⟨List.mem_cons_of_mem _ hl, hid⟩

theorem closeOnMismatch_cases (params : Option DisplayParams) (self : Window_mac) (g : Globals) :
    closeOnMismatch params self g = closeWindow self g ∨
    closeOnMismatch params self g = (self, g) := by
  cases params with
  | none => exact Or.inr rfl
  | some q =>
    by_cases hq : q.fMSAASampleCount = self.fMSAASampleCount
    · exact Or.inr (by simp [closeOnMismatch, hq])
    · exact Or.inl (closeOnMismatch_of_mismatch q self g hq)

theorem closeOnMismatch_live (params : Option DisplayParams) (self : Window_mac) (g : Globals)
    (h : (closeOnMismatch params self g).1.fWindow = none) :
    (closeOnMismatch params self g).2.live = liveAtCreation self g := by
  rcases closeOnMismatch_cases params self g with hc | hc
  · rw [hc]
    cases hw : self.fWindow with
    | none => simp [closeWindow, liveAtCreation, hw]
    | some old => simp [closeWindow, liveAtCreation, hw, SDL_DestroyWindow, gWindowMap_remove]
  · rw [hc] at h ⊢
    simp only at h
    simp [liveAtCreation, h]

theorem inv_closeOnMismatch {w : World} (hinv : Inv w) (this : WindowRef) (self : Window_mac)
    (params : Option DisplayParams) (hself : w.heap[this]? = some self) :
    Inv (w.put this (closeOnMismatch params self w.g).1 (closeOnMismatch params self w.g).2) := by
  rcases closeOnMismatch_cases params self w.g with hc | hc
  · rw [hc]
    exact inv_closeWindow hinv this self hself
  · rw [hc]
    refine hinv.congr rfl rfl ?_
    intro ref
    rw [World.getElem?_put w this ref self self w.g hself]
    split_ifs with h
    · rw [h, hself]
    · rfl

theorem inv_initWindow {w : World} (hinv : Inv w) (this : WindowRef) (self : Window_mac)
    (params : Option DisplayParams) (created : Option SDL_Window)
    (hself : w.heap[this]? = some self) (hfresh : FreshID created self w.g) :
    Inv (w.put this (initWindow this params created self w.g).2.1
          (initWindow this params created self w.g).2.2) := by
  have h1 := inv_closeOnMismatch hinv this self params hself
  have hs1 : (w.put this (closeOnMismatch params self w.g).1
      (closeOnMismatch params self w.g).2).heap[this]? = some (closeOnMismatch params self w.g).1 := by
    rw [World.getElem?_put w this this self _ _ hself]
    simp
  have h2 := inv_openWindow h1 this (closeOnMismatch params self w.g).1 params created hs1 (by
    intro hnull nw hnw x hx
    have hl := closeOnMismatch_live params self w.g hnull
    simp only [World.put] at hx
    rw [hl] at hx
    exact hfresh nw hnw x hx)
  rw [World.put_put] at h2
  exact h2

theorem inv_attach {w : World} (hinv : Inv w) (this : WindowRef) (self : Window_mac)
    (params : DisplayParams) (created : Option SDL_Window) (context : Option Nat)
    (hself : w.heap[this]? = some self) (hfresh : FreshID created self w.g) :
    Inv (w.put this (attach this params created context self w.g).2.1
          (attach this params created context self w.g).2.2) := by
  refine (inv_initWindow hinv this self (some params) created hself hfresh).congr rfl rfl ?_
  intro ref
  rw [World.getElem?_put w this ref self _ _ hself, World.getElem?_put w this ref self _ _ hself]
  split_ifs with h
  · rfl
  · rfl

theorem inv_step {w w2 : World} (hinv : Inv w) (hstep : Step w w2) : Inv w2 := by
  cases hstep with
  | initWindow this self params created hself hfresh =>
    exact inv_initWindow hinv this self params created hself hfresh
  | closeWindow this self hself => exact inv_closeWindow hinv this self hself
  | attach this self params created context hself hfresh =>
    exact inv_attach hinv this self params created context hself hfresh
  | onInval this self uninit hself => exact hinv.congr rfl rfl (fun _ => rfl)
  | HandleWindowEvent mk modState event =>
    refine hinv.congr ?_ ?_ (fun _ => rfl)
    · simp only [HandleWindowEvent]
      split
      · split_ifs <;> rfl
      · rfl
    · simp only [HandleWindowEvent]
      split
      · split_ifs <;> rfl
      · rfl

theorem inv_initial {w : World} (h : Initial w) : Inv w := by
  obtain ⟨hnull, hempty⟩ := h
  have hno : ∀ (ref : WindowRef) (s : Window_mac) (win : SDL_Window),
      w.heap[ref]? = some s → s.fWindow = some win → False := by
    intro ref s win hs hw
    obtain ⟨hlt, he⟩ := List.getElem?_eq_some.1 hs
    have hm : s ∈ w.heap := by
      rw [← he]
      exact List.getElem_mem hlt
    rw [hnull s hm] at hw
    cases hw
  refine ⟨?_, ?_, ?_⟩
  · intro k ref
    rw [hempty]
    constructor
    · intro h
      cases h
    · rintro ⟨s, win, hs, hw, _⟩
      exact (hno ref s win hs hw).elim
  · rw [hempty]
    exact List.nodup_nil
  · intro ref s win hs hw
    exact (hno ref s win hs hw).elim

theorem inv_steps {w w2 : World} (hinv : Inv w) (hsteps : Relation.ReflTransGen Step w w2) :
    Inv w2 := by
  induction hsteps with
  | refl => exact hinv
  | tail _ hstep ih => exact inv_step ih hstep

theorem inv_of_reachable {w : World} (h : Reachable w) : Inv w := by
  obtain ⟨w0, h0, hsteps⟩ := h
  exact inv_steps (inv_initial h0) hsteps

theorem reachable_step {w w2 : World} (h : Reachable w) (hstep : Step w w2) : Reachable w2 := by
  obtain ⟨w0, h0, hsteps⟩ := h
  exact ⟨w0, h0, hsteps.tail hstep⟩

theorem reachable_steps {w w2 : World} (h : Reachable w)
    (hsteps : Relation.ReflTransGen Step w w2) : Reachable w2 := by
  obtain ⟨w0, h0, hs⟩ := h
  exact ⟨w0, h0, hs.trans hsteps⟩

/-- What the invariant says about one adapter: it has an entry exactly when it holds a
window, its entries are under its current window ID, and the table finds it there. -/
theorem inv_adapter {w : World} (hinv : Inv w) (ref : WindowRef) (self : Window_mac)
    (hself : w.heap[ref]? = some self) :
    ((∃ k, (k, ref) ∈ w.g.gWindowMap) ↔ self.fWindow ≠ none) ∧
    (∀ k, (k, ref) ∈ w.g.gWindowMap → k = self.fWindowID) ∧
    (self.fWindow ≠ none → SkTDynamicHash.find self.fWindowID w.g.gWindowMap = some ref) := by
  refine ⟨⟨?_, ?_⟩, ?_, ?_⟩
  · rintro ⟨k, hk⟩
    obtain ⟨s, win, hs, hw, _⟩ := (hinv.entry_iff k ref).1 hk
    rw [hself] at hs
    cases hs
    rw [hw]
    simp
  · intro hne
    cases hw : self.fWindow with
    | none => exact absurd hw hne
    | some win => exact ⟨self.fWindowID, (hinv.entry_iff _ _).2 ⟨self, win, hself, hw, rfl⟩⟩
  · intro k hk
    obtain ⟨s, win, hs, hw, hid⟩ := (hinv.entry_iff k ref).1 hk
    rw [hself] at hs
    cases hs
    exact hid.symm
  · intro hne
    cases hw : self.fWindow with
    | none => exact absurd hw hne
    | some win =>
      exact SkTDynamicHash.find_of_mem _ _ _ hinv.keys_nodup
        ((hinv.entry_iff _ _).2 ⟨self, win, hself, hw, rfl⟩)

/-- What closing does to the table under the invariant: the closing adapter has no entry
left, and the entries of every other adapter are the ones it had. -/
theorem inv_closeWindow_entries {w : World} (hinv : Inv w) (this : WindowRef)
    (self : Window_mac) (hself : w.heap[this]? = some self) :
    (∀ k, (k, this) ∉ (closeWindow self w.g).2.gWindowMap) ∧
    (∀ k ref, ref ≠ this →
      ((k, ref) ∈ (closeWindow self w.g).2.gWindowMap ↔ (k, ref) ∈ w.g.gWindowMap)) := by
  have hinv2 := inv_closeWindow hinv this self hself
  have hs2 : (w.put this (closeWindow self w.g).1 (closeWindow self w.g).2).heap[this]?
      = some (closeWindow self w.g).1 := by
    rw [World.getElem?_put w this this self _ _ hself]
    simp
  constructor
  · intro k hk
    have h := ((inv_adapter hinv2 this _ hs2).1).1 ⟨k, hk⟩
    exact h (closeWindow_fWindow self w.g)
  · intro k ref hne
    cases hw : self.fWindow with
    | none => rw [closeWindow_of_null self w.g hw]
    | some old =>
      rw [closeWindow_of_window self w.g old hw]
      simp only
      rw [SkTDynamicHash.mem_remove _ _ _ hinv.keys_nodup]
      constructor
      · exact fun h => h.1
      · intro h
        refine ⟨h, ?_⟩
        intro e
        simp only at e
        obtain ⟨s, win, hs, hwin, hid⟩ := (hinv.entry_iff k ref).1 h
        exact hne (hinv.same_of_same_id ref this s self win old hs hself hwin hw (hid.trans e))

theorem freshWorld_initial : Initial freshWorld := by
  refine ⟨?_, rfl⟩
  intro self hself
  simp only [freshWorld, List.mem_cons, List.mem_singleton, or_self, List.not_mem_nil,
    or_false] at hself
  rw [hself]
  rfl

theorem freshWorld_reachable : Reachable freshWorld :=
  ⟨freshWorld, freshWorld_initial, Relation.ReflTransGen.refl⟩

theorem oneOpenWorld_reachable : Reachable oneOpenWorld :=
  reachable_step freshWorld_reachable
    (Step.initWindow freshWorld 0 closedAdapter none (some ⟨100, 1⟩) rfl
      (by intro nw _ x hx; cases hx))

/-! ## The registry invariant -/

/-- C7: in every world reachable from freshly constructed adapters by method calls (SDL
giving each new window an ID that no live window has), an adapter has an entry in the
table exactly when it holds a window, every entry of it is under its current window ID
and the table finds the adapter under that ID; and `closeWindow` leaves no entry of the
closing adapter and leaves the entries of every other adapter as they were. -/
theorem registry_invariant (w : World) (hw : Reachable w) :
    (∀ (ref : WindowRef) (self : Window_mac), w.heap[ref]? = some self →
      ((∃ k, (k, ref) ∈ w.g.gWindowMap) ↔ self.fWindow ≠ none) ∧
      (∀ k, (k, ref) ∈ w.g.gWindowMap → k = self.fWindowID) ∧
      (self.fWindow ≠ none →
        SkTDynamicHash.find self.fWindowID w.g.gWindowMap = some ref)) ∧
    (∀ (this : WindowRef) (self : Window_mac), w.heap[this]? = some self →
      (∀ k, (k, this) ∉ (closeWindow self w.g).2.gWindowMap) ∧
      (∀ k ref, ref ≠ this →
        ((k, ref) ∈ (closeWindow self w.g).2.gWindowMap ↔ (k, ref) ∈ w.g.gWindowMap))) :=
  ⟨fun ref self hself => inv_adapter (inv_of_reachable hw) ref self hself,
   fun this self hself => inv_closeWindow_entries (inv_of_reachable hw) this self hself⟩

theorem registry_invariant_witness :
    SkTDynamicHash.find 1 oneOpenWorld.g.gWindowMap = some 0 :=
  ((registry_invariant oneOpenWorld oneOpenWorld_reachable).1 0
    { closedAdapter with fWidth := 1280, fHeight := 960, fWindow := some ⟨100, 1⟩,
                         fWindowID := 1 } rfl).2.2 (by decide)

/-! ## Failure of window creation -/

theorem creationAttempts_append (a b : List Effect) :
    creationAttempts (a ++ b) = creationAttempts a + creationAttempts b := by
  induction a with
  | nil => simp [creationAttempts]
  | cons e rest ih =>
    cases e <;> simp [creationAttempts, ih]
    omega

theorem creationAttempts_attributeCalls (params : Option DisplayParams) :
    creationAttempts (attributeCalls params) = 0 := by
  cases params with
  | none => decide
  | some p =>
    by_cases hp : p.fMSAASampleCount > 0 <;>
      simp [attributeCalls, setGLAttributes, SDL_GL_SetAttribute, Globals.emit, emptyGlobals, hp,
        creationAttempts]

theorem creationAttempts_closeWindow (self : Window_mac) (g : Globals) :
    creationAttempts (closeWindow self g).2.trace = creationAttempts g.trace := by
  cases hw : self.fWindow with
  | none => rw [closeWindow_of_null self g hw]
  | some old =>
    rw [closeWindow_of_window self g old hw]
    simp [creationAttempts_append, creationAttempts]

/-- When the adapter holds no window, or the params carry another sample count than the
stored one, the first statement of `initWindow` does what `closeWindow` does. -/
theorem closeOnMismatch_eq_closeWindow (params : Option DisplayParams) (self : Window_mac)
    (g : Globals)
    (hstart : self.fWindow = none ∨
      ∃ p, params = some p ∧ p.fMSAASampleCount ≠ self.fMSAASampleCount) :
    closeOnMismatch params self g = closeWindow self g := by
  rcases hstart with h | ⟨p, hp, hne⟩
  · rw [closeWindow_of_null self g h]
    rcases closeOnMismatch_cases params self g with hc | hc
    · rw [hc, closeWindow_of_null self g h]
    · exact hc
  · subst hp
    exact closeOnMismatch_of_mismatch p self g hne

/-- C5: for an adapter that holds no window, or whose window this call tears down (the
params carry another sample count than the stored one), `initWindow` returns false
exactly when `SDL_CreateWindow` returns null; the call makes exactly one
`SDL_CreateWindow` call; after a failure the adapter holds no window and, in a reachable
world, has no entry in the table. -/
theorem initWindow_fails_iff_creation_fails (w : World) (this : WindowRef) (self : Window_mac)
    (params : Option DisplayParams) (created : Option SDL_Window)
    (hself : w.heap[this]? = some self)
    (hstart : self.fWindow = none ∨
      ∃ p, params = some p ∧ p.fMSAASampleCount ≠ self.fMSAASampleCount) :
    ((initWindow this params created self w.g).1 = false ↔ created = none) ∧
    creationAttempts (initWindow this params created self w.g).2.2.trace
        = creationAttempts w.g.trace + 1 ∧
    (created = none → (initWindow this params created self w.g).2.1.fWindow = none) ∧
    (Reachable w → created = none →
      ∀ k, (k, this) ∉ (initWindow this params created self w.g).2.2.gWindowMap) := by
  have hinit : initWindow this params created self w.g
      = openWindow this params created (closeWindow self w.g).1 (closeWindow self w.g).2 := by
    unfold initWindow
    rw [closeOnMismatch_eq_closeWindow params self w.g hstart]
  have hnull := closeWindow_fWindow self w.g
  have htrace := creationAttempts_closeWindow self w.g
  rw [hinit]
  cases created with
  | none =>
    rw [openWindow_of_null_failure this params _ _ hnull]
    refine ⟨by simp, ?_, fun _ => hnull, ?_⟩
    · simp [Globals.emit, creationAttempts_append, creationAttempts_attributeCalls, htrace,
        createCall, creationAttempts]
    · intro hreach _ k
      exact (inv_closeWindow_entries (inv_of_reachable hreach) this self hself).1 k
  | some nw =>
    rw [openWindow_of_null_success this params nw _ _ hnull]
    refine ⟨by simp, ?_, fun h => by simp at h, fun _ h => by simp at h⟩
    simp [creationAttempts_append, creationAttempts_attributeCalls, htrace, createCall,
      creationAttempts]

theorem initWindow_fails_iff_creation_fails_witness :
    (initWindow 0 none none closedAdapter freshWorld.g).1 = false ∧
    (initWindow 0 none none closedAdapter freshWorld.g).2.1.fWindow = none ∧
    ∀ k, (k, 0) ∉ (initWindow 0 none none closedAdapter freshWorld.g).2.2.gWindowMap :=
  ⟨(initWindow_fails_iff_creation_fails freshWorld 0 closedAdapter none none rfl
      (Or.inl rfl)).1.2 rfl,
   (initWindow_fails_iff_creation_fails freshWorld 0 closedAdapter none none rfl
      (Or.inl rfl)).2.2.1 rfl,
   (initWindow_fails_iff_creation_fails freshWorld 0 closedAdapter none none rfl
      (Or.inl rfl)).2.2.2 freshWorld_reachable rfl⟩

/-! ## Invalidation -/

/-- C9: for an adapter of a reachable world that holds a window, `onInval` changes the
globals only by one `SDL_PushEvent`: the event is queued and the trace gains that one
call and no callback.  The event is a window event of kind exposed with the window ID of
the adapter.  Passed to `HandleWindowEvent` right away, or in any world reached later in
which the adapter holds a window under that ID, the event is routed to the same adapter:
the call returns false and its only effect is one callback, `onPaint` on that adapter. -/
theorem onInval_deferred_repaint (w : World) (this : WindowRef) (self : Window_mac)
    (win : SDL_Window) (uninit : SDL_Event)
    (hreach : Reachable w) (hself : w.heap[this]? = some self)
    (hwin : self.fWindow = some win) :
    (onInval_sdlevent uninit self).type = SDL_WINDOWEVENT ∧
    (onInval_sdlevent uninit self).window_event = SDL_WINDOWEVENT_EXPOSED ∧
    (onInval_sdlevent uninit self).windowID = self.fWindowID ∧
    onInval uninit self w.g
      = { w.g with
          queue := w.g.queue ++ [onInval_sdlevent uninit self],
          trace := w.g.trace ++ [Effect.SDL_PushEvent (onInval_sdlevent uninit self)] } ∧
    callbacksOf (onInval uninit self w.g).trace = callbacksOf w.g.trace ∧
    (∀ (mk : ModifierKeys) (modState : Nat),
      HandleWindowEvent mk modState (onInval_sdlevent uninit self) (onInval uninit self w.g)
        = (false, (onInval uninit self w.g).emit [Effect.callback this Callback.onPaint])) ∧
    (∀ (w2 : World) (self2 : Window_mac) (win2 : SDL_Window) (mk : ModifierKeys)
        (modState : Nat),
      Relation.ReflTransGen Step { w with g := onInval uninit self w.g } w2 →
      w2.heap[this]? = some self2 → self2.fWindow = some win2 →
      self2.fWindowID = self.fWindowID →
      HandleWindowEvent mk modState (onInval_sdlevent uninit self) w2.g
        = (false, w2.g.emit [Effect.callback this Callback.onPaint])) := by
  have later : ∀ (w2 : World) (self2 : Window_mac) (win2 : SDL_Window) (mk : ModifierKeys)
      (modState : Nat),
      Relation.ReflTransGen Step { w with g := onInval uninit self w.g } w2 →
      w2.heap[this]? = some self2 → self2.fWindow = some win2 →
      self2.fWindowID = self.fWindowID →
      HandleWindowEvent mk modState (onInval_sdlevent uninit self) w2.g
        = (false, w2.g.emit [Effect.callback this Callback.onPaint]) := by
    intro w2 self2 win2 mk modState hsteps hself2 hwin2 hid
    have hreach2 : Reachable w2 :=
      reachable_steps (reachable_step hreach (Step.onInval w this self uninit hself)) hsteps
    have hfind := (inv_adapter (inv_of_reachable hreach2) this self2 hself2).2.2 (by
      rw [hwin2]
      simp)
    rw [hid] at hfind
    have hev : handleEvent mk modState (onInval_sdlevent uninit self)
        = (false, [Callback.onPaint]) := by
      simp [handleEvent, onInval_sdlevent]
    have hwid : (onInval_sdlevent uninit self).windowID = self.fWindowID := rfl
    simp [HandleWindowEvent, hwid, hfind, hev]
  refine ⟨rfl, rfl, rfl, rfl, ?_, ?_, later⟩
  · simp only [onInval, SDL_PushEvent]
    generalize w.g.trace = t
    induction t with
    | nil => rfl
    | cons e rest ih => cases e <;> simp [callbacksOf, ih]
  · intro mk modState
    exact later { w with g := onInval uninit self w.g } self win mk modState
      Relation.ReflTransGen.refl hself hwin rfl

theorem onInval_deferred_repaint_witness :
    HandleWindowEvent sampleModifierKeys 0
        (onInval_sdlevent zeroEvent
          { closedAdapter with fWidth := 1280, fHeight := 960, fWindow := some ⟨100, 1⟩,
                               fWindowID := 1 })
        (onInval zeroEvent
          { closedAdapter with fWidth := 1280, fHeight := 960, fWindow := some ⟨100, 1⟩,
                               fWindowID := 1 } oneOpenWorld.g)
      = (false,
         (onInval zeroEvent
          { closedAdapter with fWidth := 1280, fHeight := 960, fWindow := some ⟨100, 1⟩,
                               fWindowID := 1 } oneOpenWorld.g).emit
           [Effect.callback 0 Callback.onPaint]) :=
  (onInval_deferred_repaint oneOpenWorld 0
    { closedAdapter with fWidth := 1280, fHeight := 960, fWindow := some ⟨100, 1⟩,
                         fWindowID := 1 } ⟨100, 1⟩ zeroEvent oneOpenWorld_reachable rfl rfl).2.2.2.2.2.2
    { oneOpenWorld with
      g := onInval zeroEvent
        { closedAdapter with fWidth := 1280, fHeight := 960, fWindow := some ⟨100, 1⟩,
                             fWindowID := 1 } oneOpenWorld.g }
    { closedAdapter with fWidth := 1280, fHeight := 960, fWindow := some ⟨100, 1⟩,
                         fWindowID := 1 } ⟨100, 1⟩ sampleModifierKeys 0
    Relation.ReflTransGen.refl rfl rfl rfl

end sk_app
